import Mathlib

/-!
Verification development for the `embassy_staff` repository.

This file gives a shallow embedding, in Lean 4, of the parts of the source
that the frozen claims are about:

* `src/agents/embassy_base_agent.py` — the mock resource catalog and its
  search routine;
* `src/agents/embassy_navigator_agent.py` — search-term extraction, catalog
  search, relevance scoring, ranking, top-10 truncation, and BOM derivation;
* `src/agents/embassy_orchestrator_agent.py` — intent analysis and the
  agent-coordination loop;
* `src/agents/embassy_concierge_agent.py` — the conversation dispatcher and
  the comprehensive-intake path.

Modelling conventions:

* Python strings are Lean `String`s; `str.lower()/upper()` are modelled as
  ASCII case maps (every string constant in the source is ASCII), Python's
  substring test `a in b` as `pyIn`, `str.split()` as `pySplitWS`,
  `str.strip()` as `pyStrip`, and `re.findall(r"\b\w+\b", s)` as `wordRuns`.
* Python float scores: every numeric constant in the scorer and BOM deriver
  (0.3, 0.02, 0.2, 0.15, 0.05, 0.25, 0.7, 1.0) is an exact multiple of 0.01
  and the only operations applied are addition, `min`, `max` and order
  comparison, so scores are modelled exactly in integer hundredths of a
  point (`0.3 ↦ 30`, clamp to `[0,100]`).  The scaling is order-preserving
  and exact over the rationals; IEEE-754 rounding can make the float sum
  differ from the exact value in the last bits, but no claim in this
  development depends on a comparison that is that tight, and two candidates
  scored by the identical operation sequence receive bit-identical float
  scores, which the exact model reflects as equal integers.
* `dict` iteration order in Python 3.7+ is insertion order; fixed tables are
  embedded as association lists in source order.
* `list.sort(key=..., reverse=True)` and `sorted(..., key=...)` are stable;
  they are modelled by a stable insertion sort (`sortBy`), which computes
  the unique stable sort for the given comparison.
* `async` plays no role in the claims (all awaited calls are sequential);
  effects on storage are modelled by explicit state passing, and a Python
  exception escaping a function is modelled by `Except.error`.
-/

/-! ## Python string primitives -/

/-- ASCII lowercase of one character (model of `str.lower` per character). -/
def asciiLowerChar (c : Char) : Char :=
  if 65 ≤ c.toNat ∧ c.toNat ≤ 90 then Char.ofNat (c.toNat + 32) else c

/-- ASCII uppercase of one character (model of `str.upper` per character). -/
def asciiUpperChar (c : Char) : Char :=
  if 97 ≤ c.toNat ∧ c.toNat ≤ 122 then Char.ofNat (c.toNat - 32) else c

/-- Model of Python `s.lower()` (ASCII range; all source constants are ASCII). -/
def pyLower (s : String) : String := ⟨s.data.map asciiLowerChar⟩

/-- Model of Python `s.upper()` (ASCII range). -/
def pyUpper (s : String) : String := ⟨s.data.map asciiUpperChar⟩

/-- Whether `pre` is a leading segment of `l`. -/
def listStartsWith : List Char → List Char → Bool
  | [], _ => true
  | _ :: _, [] => false
  | a :: as, b :: bs => a == b && listStartsWith as bs

/-- Whether `needle` occurs as a contiguous segment of `hay`. -/
def listHasSegment (needle : List Char) : List Char → Bool
  | [] => needle.isEmpty
  | c :: rest => listStartsWith needle (c :: rest) || listHasSegment needle rest

/-- Model of Python's substring test `needle in hay` for strings. -/
def pyIn (needle hay : String) : Bool :=
  listHasSegment needle.data hay.data

/-- Maximal runs of characters satisfying `p`, as strings, in order. -/
def runsOf (p : Char → Bool) (s : String) : List String :=
  let step : List String × List Char → Char → List String × List Char :=
    fun acc c =>
      if p c then (acc.1, acc.2 ++ [c])
      else if acc.2.isEmpty then acc
      else (acc.1 ++ [⟨acc.2⟩], [])
  let r := s.data.foldl step ([], [])
  if r.2.isEmpty then r.1 else r.1 ++ [⟨r.2⟩]

/-- Model of Python `s.split()` with no argument: maximal non-whitespace runs. -/
def pySplitWS (s : String) : List String :=
  runsOf (fun c => !c.isWhitespace) s

/-- A word character in the sense of the regex `\w` (ASCII range). -/
def isWordChar (c : Char) : Bool := c.isAlphanum || c == '_'

/-- Model of `re.findall(r"\b\w+\b", s)`: maximal runs of word characters. -/
def wordRuns (s : String) : List String := runsOf isWordChar s

/-- Model of Python `s.strip()`: drop leading and trailing whitespace. -/
def pyStrip (s : String) : String :=
  ⟨((s.data.dropWhile Char.isWhitespace).reverse.dropWhile Char.isWhitespace).reverse⟩

/-- Model of Python `s.split(sep)` for a one-character separator: split at
every occurrence, keeping empty pieces (so the result is never empty). -/
def pySplitChar (sep : Char) (s : String) : List String :=
  (s.data.foldr
    (fun c acc =>
      match acc with
      | [] => [[c]]
      | g :: gs => if c == sep then [] :: g :: gs else (c :: g) :: gs)
    [[]]).map fun l => ⟨l⟩

/-- Python truthiness of an optional string (`None` and `""` are falsy). -/
def optTruthy : Option String → Bool
  | none => false
  | some s => s ≠ ""

/-! ## Stable sorting

`list.sort` / `sorted` in CPython are stable.  A stable sort is uniquely
determined by the boolean "keep-left" relation, so the insertion sort below
computes exactly the list CPython produces.  `le a b = true` means `a` may
stay in front of `b`; ties therefore preserve the input order. -/

/-- Insert `x` into `l` in front of the first element `y` with `le x y`. -/
def insertBy (le : α → α → Bool) (x : α) : List α → List α
  | [] => [x]
  | y :: ys => if le x y then x :: y :: ys else y :: insertBy le x ys

/-- Stable sort with respect to the total boolean relation `le`. -/
def sortBy (le : α → α → Bool) : List α → List α
  | [] => []
  | x :: xs => insertBy le x (sortBy le xs)

theorem mem_insertBy (le : α → α → Bool) (x : α) (l : List α) (a : α) :
    a ∈ insertBy le x l ↔ a = x ∨ a ∈ l := by
  induction l with
  | nil => simp [insertBy]
  | cons y ys ih =>
    by_cases h : le x y = true
    · simp [insertBy, h]
    · simp only [insertBy, h]
      simp only [Bool.false_eq_true, if_false, List.mem_cons, ih]
      tauto

theorem mem_sortBy (le : α → α → Bool) (l : List α) (a : α) :
    a ∈ sortBy le l ↔ a ∈ l := by
  induction l with
  | nil => simp [sortBy]
  | cons x xs ih => simp [sortBy, mem_insertBy, ih]

/-! ## Data model (`src/models/embassy_models.py`)

Only the fields the claims touch are carried; free-text user-facing
messages, timestamps and uuid defaults are not modelled (no claim mentions
them).  Fresh ids are drawn from an explicit counter in the storage state. -/

/-- ProjectConstraints (`embassy_models.py`).  `budget` is `str | float` in
the source; only its truthiness is ever used, so it is carried as an
optional string. -/
structure ProjectConstraints where
  budget : Option String := none
  timeline : Option String := none
  known_dependencies : List String := []
  compliance_requirements : List String := []
deriving Repr, DecidableEq

/-- UseCase (`embassy_models.py`), restricted to the fields the agents read. -/
structure UseCase where
  use_case_id : String := ""
  title : String
  description : String
  industry_vertical : Option String := none
  cloud_preference : Option String := none
  project_constraints : ProjectConstraints := {}
  success_criteria : List String := []
  resource_type_preference : List String := []
  status : String := "new"
  created_by : String
deriving Repr, DecidableEq

/-- One record of the mock TechHub catalog (`embassy_base_agent.py`). -/
structure Resource where
  resource_id : String
  title : String
  type : String
  description : String
  tags : List String
  industry : List String
  link : String
deriving Repr, DecidableEq

/-- RecommendedResource (`embassy_models.py`); the relevance score is in
integer hundredths. -/
structure RecommendedResource where
  resource_id : String
  title : String
  type : String
  relevance_score : Int
  description : String
  link : String
deriving Repr, DecidableEq

/-- BOMItem (`embassy_models.py`). -/
structure BOMItem where
  item : String
  category : String
  source : String
  required : Bool := true
deriving Repr, DecidableEq

/-- ResourceMatch (`embassy_models.py`), restricted to claim-relevant fields. -/
structure ResourceMatch where
  use_case_id : String
  matched_by : String
  recommended_resources : List RecommendedResource
  generated_bom : List BOMItem
  notes : String
deriving Repr, DecidableEq

/-! ## Mock resource catalog (`embassy_base_agent.py`, lines 72-147) -/

/-- Catalog entry "demo-001" of `MockResourceCatalog.resources`. -/
def resDemo001 : Resource :=
  { resource_id := "demo-001"
  , title := "Azure OpenAI Chat Demo"
  , type := "Demo"
  , description := "Interactive chat demo showcasing Azure OpenAI integration"
  , tags := ["ai", "chat", "azure", "openai"]
  , industry := ["general"]
  , link := "https://techhub.internal/demos/azure-openai-chat" }

/-- Catalog entry "solution-001" of `MockResourceCatalog.resources`. -/
def resSolution001 : Resource :=
  { resource_id := "solution-001"
  , title := "Document Intelligence Pipeline"
  , type := "Solution"
  , description := "Complete solution for document processing with AI extraction"
  , tags := ["ai", "document", "processing", "pipeline"]
  , industry := ["finance", "legal", "healthcare"]
  , link := "https://techhub.internal/solutions/doc-intelligence" }

/-- Catalog entry "component-001" of `MockResourceCatalog.resources`. -/
def resComponent001 : Resource :=
  { resource_id := "component-001"
  , title := "Azure Functions Auth Handler"
  , type := "Component"
  , description := "Reusable authentication component for Azure Functions"
  , tags := ["auth", "azure", "functions", "security"]
  , industry := ["general"]
  , link := "https://techhub.internal/components/auth-handler" }

/-- Catalog entry "demo-002" of `MockResourceCatalog.resources`. -/
def resDemo002 : Resource :=
  { resource_id := "demo-002"
  , title := "Power BI Embedded Dashboard"
  , type := "Demo"
  , description := "Embedded analytics dashboard with Power BI"
  , tags := ["powerbi", "analytics", "dashboard", "embedded"]
  , industry := ["retail", "manufacturing", "finance"]
  , link := "https://techhub.internal/demos/powerbi-embedded" }

/-- Catalog entry "solution-002" of `MockResourceCatalog.resources`. -/
def resSolution002 : Resource :=
  { resource_id := "solution-002"
  , title := "IoT Device Management Platform"
  , type := "Solution"
  , description := "Complete IoT device lifecycle management solution"
  , tags := ["iot", "device", "management", "azure"]
  , industry := ["manufacturing", "agriculture", "utilities"]
  , link := "https://techhub.internal/solutions/iot-platform" }

/-- The fixed `MockResourceCatalog.resources` list, in source order. -/
def catalogResources : List Resource :=
  [resDemo001, resSolution001, resComponent001, resDemo002, resSolution002]

/-- MockResourceCatalog.search_resources: conjunctive filtering in source
order (type, industry, tags, then query); optional arguments model the
Python defaults, and empty strings / empty lists are falsy as in Python. -/
def catalogSearchResources (query : String) (resource_type : Option String)
    (industry : Option String) (tags : Option (List String)) : List Resource :=
  let results := catalogResources
  let results := match resource_type with
    | some t => if t = "" then results
        else results.filter fun r => pyLower r.type == pyLower t
    | none => results
  let results := match industry with
    | some ind => if ind = "" then results
        else results.filter fun r => (r.industry.map pyLower).contains (pyLower ind)
    | none => results
  let results := match tags with
    | some ts => if ts.isEmpty then results
        else results.filter fun r =>
          ts.any fun tag => (r.tags.map pyLower).contains (pyLower tag)
    | none => results
  if query = "" then results
  else results.filter fun r =>
    pyIn (pyLower query) (pyLower r.title) ||
    pyIn (pyLower query) (pyLower r.description) ||
    r.tags.any fun tag => pyIn (pyLower query) (pyLower tag)

/-! ## Navigator: search-term extraction
(`embassy_navigator_agent.py`, lines 25-33 and 131-157) -/

/-- NavigatorAgent.keyword_mapping, in source (dict insertion) order. -/
def keywordMapping : List (String × List String) :=
  [ ("ai", ["artificial intelligence", "machine learning", "ml", "openai", "cognitive"])
  , ("chat", ["chatbot", "conversation", "dialogue", "messaging"])
  , ("document", ["doc", "pdf", "file", "paper", "text"])
  , ("analytics", ["analysis", "reporting", "insights", "metrics", "dashboard"])
  , ("iot", ["internet of things", "sensors", "devices", "telemetry"])
  , ("auth", ["authentication", "authorization", "security", "login"])
  , ("cloud", ["azure", "aws", "gcp", "infrastructure"])
  ]

/-- The fixed `tech_keywords` list of `_extract_search_terms`. -/
def techKeywords : List String :=
  ["api", "database", "web", "mobile", "integration", "platform",
   "service", "application", "system", "solution", "framework"]

/-- SearchTerms: the dict built by `_extract_search_terms`. -/
structure SearchTerms where
  keywords : List String
  resource_types : List String
  industry : Option String
  cloud : Option String
deriving Repr, DecidableEq

/-- NavigatorAgent._extract_search_terms (lines 131-157): mapped keywords in
mapping order, then tech keywords in order of occurrence in title+description,
skipping duplicates against the accumulated keyword list. -/
def extractSearchTerms (uc : UseCase) : SearchTerms :=
  let descriptionLower := pyLower uc.description
  let base := keywordMapping.foldl
    (fun acc p =>
      if pyIn p.1 descriptionLower || p.2.any (fun v => pyIn v descriptionLower)
      then acc ++ [p.1] else acc) []
  let words := wordRuns (uc.title ++ " " ++ uc.description)
  let keywords := words.foldl
    (fun acc w =>
      let wl := pyLower w
      if techKeywords.contains wl && !acc.contains wl then acc ++ [wl] else acc)
    base
  { keywords := keywords
  , resource_types := uc.resource_type_preference
  , industry := uc.industry_vertical
  , cloud := uc.cloud_preference }

/-! ## Navigator: catalog search (`embassy_navigator_agent.py`, lines 159-184) -/

/-- Append the members of `ms` that are not already present, in order
(models the `if match not in all_matches: all_matches.append(match)` loop). -/
def addNewMatches (acc : List Resource) (ms : List Resource) : List Resource :=
  ms.foldl (fun acc m => if acc.contains m then acc else acc ++ [m]) acc

/-- NavigatorAgent._search_catalog: keyword passes in keyword order, then
resource-type passes, then an industry pass; each pass appends only
not-yet-discovered resources. -/
def searchCatalog (terms : SearchTerms) : List Resource :=
  let afterKeywords := terms.keywords.foldl
    (fun acc kw => addNewMatches acc (catalogSearchResources kw none none none)) []
  let afterTypes := terms.resource_types.foldl
    (fun acc t => addNewMatches acc (catalogSearchResources "" (some t) none none))
    afterKeywords
  match terms.industry with
  | some ind =>
      if ind = "" then afterTypes
      else addNewMatches afterTypes (catalogSearchResources "" none (some ind) none)
  | none => afterTypes

/-! ## Navigator: relevance scoring (`embassy_navigator_agent.py`, lines 186-227) -/

/-- A resource paired with its relevance score in integer hundredths. -/
structure ScoredResource where
  resource : Resource
  score : Int
deriving Repr, DecidableEq

/-- First-occurrence deduplication (the model of building a Python `set`
from a list and then counting; only cardinalities of such sets are used). -/
def dedupFirst (l : List String) : List String :=
  l.foldl (fun acc w => if acc.contains w then acc else acc ++ [w]) []

/-- Relevance of one resource (`_score_resources` loop body): five additive
signals, description and tag contributions capped, final clamp to [0,100]
hundredths (i.e. [0,1]). -/
def scoreOne (uc : UseCase) (r : Resource) : ScoredResource :=
  let s1 : Int :=
    if (pySplitWS (pyLower uc.title)).any (fun w => pyIn w (pyLower r.title))
    then 30 else 0
  let ucWords := pySplitWS (pyLower uc.description)
  let rWords := pySplitWS (pyLower r.description)
  let overlap : Int := ((dedupFirst ucWords).filter (fun w => rWords.contains w)).length
  let s2 : Int := min 30 (overlap * 2)
  let s3 : Int := if uc.resource_type_preference.contains r.type then 20 else 0
  let s4 : Int :=
    match uc.industry_vertical with
    | some iv =>
        if iv ≠ "" && (r.industry.map pyLower).contains (pyLower iv) then 15 else 0
    | none => 0
  let ucTags := (extractSearchTerms uc).keywords
  let tagMatches : Int := (r.tags.filter (fun t => ucTags.contains t)).length
  let s5 : Int := min 25 (tagMatches * 5)
  { resource := r, score := min 100 (max 0 (s1 + s2 + s3 + s4 + s5)) }

/-- The keep-left relation of `scored_resources.sort(key=score, reverse=True)`:
an element stays in front when its score is at least the other's. -/
def scoreGE (a b : ScoredResource) : Bool := b.score ≤ a.score

/-- NavigatorAgent._score_resources: score every candidate in order, then
stable-sort by score descending. -/
def scoreResources (resources : List Resource) (uc : UseCase) : List ScoredResource :=
  sortBy scoreGE (resources.map (scoreOne uc))

/-! ## Navigator: BOM derivation (`embassy_navigator_agent.py`, lines 229-320) -/

/-- The "Project Management" standing item (lines 255-260). -/
def pmBOMItem : BOMItem :=
  { item := "Project Management", category := "Process",
    source := "Standard Practice", required := true }

/-- The "Technical Documentation" standing item (lines 261-266). -/
def docBOMItem : BOMItem :=
  { item := "Technical Documentation", category := "Deliverable",
    source := "Standard Practice", required := true }

/-- The expedited-process item (lines 271-276). -/
def rapidBOMItem : BOMItem :=
  { item := "Rapid Deployment Framework", category := "Process",
    source := "Best Practice", required := true }

/-- NavigatorAgent._get_cloud_requirements (lines 280-303): fixed
per-provider tables keyed by the lowercased preference; unknown providers
yield nothing. -/
def getCloudRequirements (cloud_preference : String) : List BOMItem :=
  if pyLower cloud_preference = "azure" then
    [ { item := "Azure Subscription", category := "Infrastructure", source := "Azure", required := true }
    , { item := "Azure DevOps", category := "Tools", source := "Azure", required := true }
    , { item := "Azure Monitor", category := "Operations", source := "Azure", required := false } ]
  else if pyLower cloud_preference = "aws" then
    [ { item := "AWS Account", category := "Infrastructure", source := "AWS", required := true }
    , { item := "CodePipeline", category := "Tools", source := "AWS", required := true }
    , { item := "CloudWatch", category := "Operations", source := "AWS", required := false } ]
  else if pyLower cloud_preference = "gcp" then
    [ { item := "GCP Project", category := "Infrastructure", source := "GCP", required := true }
    , { item := "Cloud Build", category := "Tools", source := "GCP", required := true }
    , { item := "Cloud Monitoring", category := "Operations", source := "GCP", required := false } ]
  else []

/-- The GDPR compliance item of `_get_compliance_requirements`. -/
def gdprBOMItem : BOMItem :=
  { item := "GDPR Compliance Framework", category := "Compliance",
    source := "Regulatory", required := true }

/-- The SOC2 compliance item of `_get_compliance_requirements`. -/
def soc2BOMItem : BOMItem :=
  { item := "SOC2 Audit Preparation", category := "Compliance",
    source := "Regulatory", required := true }

/-- The contribution of one requirement string in the loop body of
`_get_compliance_requirements` (lines 309-318): the first matching branch
appends one item; an unmatched string appends nothing. -/
def complianceItemsFor (req : String) : List BOMItem :=
  let reqLower := pyLower req
  if pyIn "gdpr" reqLower then [gdprBOMItem]
  else if pyIn "hipaa" reqLower then
    [{ item := "HIPAA Compliance Tools", category := "Compliance",
       source := "Regulatory", required := true }]
  else if pyIn "soc2" reqLower then [soc2BOMItem]
  else if pyIn "pci" reqLower then
    [{ item := "PCI-DSS Compliance Suite", category := "Compliance",
       source := "Regulatory", required := true }]
  else []

/-- NavigatorAgent._get_compliance_requirements (lines 305-320): each
requirement string is matched case-insensitively by substring against the
known regimes, in source branch order; unmatched strings contribute nothing. -/
def getComplianceRequirements (requirements : List String) : List BOMItem :=
  requirements.foldl (fun items req => items ++ complianceItemsFor req) []

/-- The cloud-preference block of `_generate_bom_items` (lines 244-246):
appended only when the preference is truthy. -/
def bomCloudBlock (uc : UseCase) : List BOMItem :=
  match uc.cloud_preference with
  | some p => if p = "" then [] else getCloudRequirements p
  | none => []

/-- The compliance block of `_generate_bom_items` (lines 249-251): appended
only when the requirement list is non-empty. -/
def bomComplianceBlock (uc : UseCase) : List BOMItem :=
  if uc.project_constraints.compliance_requirements.isEmpty then []
  else getComplianceRequirements uc.project_constraints.compliance_requirements

/-- The timeline block of `_generate_bom_items` (lines 270-276): the
expedited item is appended only when the timeline is truthy and its
lowercasing contains the substring "urgent". -/
def bomTimelineBlock (uc : UseCase) : List BOMItem :=
  match uc.project_constraints.timeline with
  | some t =>
      if t ≠ "" && pyIn "urgent" (pyLower t) then [rapidBOMItem] else []
  | none => []

/-- The top-5-candidates block of `_generate_bom_items` (lines 234-241);
an item is required when its score exceeds 0.70 (70 hundredths). -/
def bomTopBlock (scored_resources : List ScoredResource) : List BOMItem :=
  (scored_resources.take 5).map fun s =>
    { item := s.resource.title
    , category := "TechHub " ++ s.resource.type
    , source := "TechHub Catalog"
    , required := (70 : Int) < s.score }

/-- NavigatorAgent._generate_bom_items (lines 229-278): top-5 candidates as
catalog items (required when score exceeds 0.70), then cloud items, then
compliance items, then the two standing items, then the expedited item. -/
def generateBOMItems (scored_resources : List ScoredResource) (uc : UseCase) :
    List BOMItem :=
  bomTopBlock scored_resources
  ++ bomCloudBlock uc
  ++ bomComplianceBlock uc
  ++ [pmBOMItem, docBOMItem]
  ++ bomTimelineBlock uc

/-! ## Navigator: search_resources pipeline (`embassy_navigator_agent.py`,
lines 50-99).  The storage lookup around the pipeline returns failure
responses when the use case is unknown; the `ResourceMatch` construction,
which the claims are about, is a pure function of the use case. -/

/-- Projection of a scored candidate onto the persisted recommendation. -/
def toRecommended (s : ScoredResource) : RecommendedResource :=
  { resource_id := s.resource.resource_id
  , title := s.resource.title
  , type := s.resource.type
  , relevance_score := s.score
  , description := s.resource.description
  , link := s.resource.link }

/-- The ResourceMatch built by `_search_resources` (lines 70-99): ranked
candidates truncated to the top 10, plus the derived BOM. -/
def searchResourcesMatch (uc : UseCase) : ResourceMatch :=
  let search_terms := extractSearchTerms uc
  let matching_resources := searchCatalog search_terms
  let scored_resources := scoreResources matching_resources uc
  { use_case_id := uc.use_case_id
  , matched_by := "NavigatorAgent"
  , recommended_resources := (scored_resources.take 10).map toRecommended
  , generated_bom := generateBOMItems scored_resources uc
  , notes := "Found " ++ toString matching_resources.length
      ++ " potential matches, returning top "
      ++ toString (min 10 scored_resources.length) }

/-! ## Orchestrator: intent analysis (`embassy_orchestrator_agent.py`,
lines 83-145) -/

/-- The analysis dict produced by `_perform_intent_analysis`. -/
structure IntentAnalysis where
  intent_type : String
  complexity_level : String
  required_agents : List String
  priority : String
  estimated_effort : String
  special_requirements : List String
deriving Repr, DecidableEq

/-- Complexity classification (lines 98-107): the indicator table is walked
in dict insertion order high → medium → low, first match wins, default
"medium". -/
def complexityLevel (descriptionLower : String) : String :=
  if ["enterprise", "scale", "production", "mission-critical", "compliance"].any
      (fun k => pyIn k descriptionLower) then "high"
  else if ["integration", "custom", "solution", "multiple"].any
      (fun k => pyIn k descriptionLower) then "medium"
  else if ["demo", "proof", "prototype", "simple"].any
      (fun k => pyIn k descriptionLower) then "low"
  else "medium"

/-- Priority classification (lines 109-115): "high" on an urgency keyword in
the timeline, "medium" on a short-duration keyword, else "normal"; a missing
or empty timeline is falsy. -/
def priorityLevel (timeline : Option String) : String :=
  match timeline with
  | none => "normal"
  | some t =>
      if t = "" then "normal"
      else
        let tl := pyLower t
        if ["urgent", "asap", "immediate"].any (fun k => pyIn k tl) then "high"
        else if ["week", "days"].any (fun k => pyIn k tl) then "medium"
        else "normal"

/-- OrchestratorAgent._perform_intent_analysis (lines 83-145). -/
def performIntentAnalysis (uc : UseCase) : IntentAnalysis :=
  let descriptionLower := pyLower uc.description
  let complexity := complexityLevel descriptionLower
  let priority := priorityLevel uc.project_constraints.timeline
  let agents0 := ["NavigatorAgent", "ArchivistAgent"]
  let hasCompliance := !uc.project_constraints.compliance_requirements.isEmpty
  let hasBudget := optTruthy uc.project_constraints.budget
  let hasInfra :=
    pyIn "infrastructure" descriptionLower || pyIn "deployment" descriptionLower
  let agents1 := if hasCompliance then agents0 ++ ["ComplianceAgent"] else agents0
  let specials1 := if hasCompliance then ["compliance_review"] else []
  let agents2 := if hasBudget then agents1 ++ ["CostAgent"] else agents1
  let specials2 := if hasBudget then specials1 ++ ["cost_analysis"] else specials1
  let agents3 := if hasInfra then agents2 ++ ["InfraAgent"] else agents2
  let specials3 :=
    if hasInfra then specials2 ++ ["infrastructure_planning"] else specials2
  let agents4 :=
    if complexity = "high" then agents3 ++ ["ResearchAgent"] else agents3
  let specials4 :=
    if complexity = "high" then specials3 ++ ["precedent_research"] else specials3
  let effort :=
    if complexity = "high" then "high"
    else if 3 < agents4.length then "medium"
    else "low"
  { intent_type := "resource_discovery"
  , complexity_level := complexity
  , required_agents := agents4
  , priority := priority
  , estimated_effort := effort
  , special_requirements := specials4 }

/-! ## Orchestrator: coordination (`embassy_orchestrator_agent.py`,
lines 268-352)

A worker invocation (`_execute_agent`) either returns a response or raises;
the loop catches the raise.  The behaviour of the workers is abstracted as a
function from the position in the execution order and the worker name to the
outcome, which covers every possible (context-dependent) behaviour of the
real workers. -/

/-- Outcome of one `_execute_agent` call. -/
inductive ExecOutcome where
  | throws (msg : String)
  | returns (success : Bool)
deriving Repr, DecidableEq

/-- One entry of `coordination_results`. -/
structure CoordEntry where
  agent : String
  success : Bool
deriving Repr, DecidableEq

/-- The fixed critical set of the halt rule (line 296). -/
def criticalAgents : List String := ["NavigatorAgent", "ArchivistAgent"]

/-- The fixed worker-priority table of `_determine_agent_execution_order`
(lines 337-344); unknown workers default to 5. -/
def agentPriority (name : String) : Nat :=
  if name = "NavigatorAgent" then 1
  else if name = "ResearchAgent" then 2
  else if name = "ArchivistAgent" then 9
  else if name = "ComplianceAgent" then 3
  else if name = "CostAgent" then 4
  else if name = "InfraAgent" then 5
  else 5

/-- OrchestratorAgent._determine_agent_execution_order (lines 334-352):
stable sort by the priority table. -/
def executionOrder (required_agents : List String) : List String :=
  sortBy (fun a b => agentPriority a ≤ agentPriority b) required_agents

/-- The coordination loop (lines 285-310), with `i` the position in the
execution order: a returned response is recorded and, when unsuccessful and
from a critical worker, stops the loop; a raise is caught and recorded as a
failed entry without stopping. -/
def coordLoop (behave : Nat → String → ExecOutcome) : Nat → List String → List CoordEntry
  | _, [] => []
  | i, a :: rest =>
    match behave i a with
    | .throws _ => { agent := a, success := false } :: coordLoop behave (i + 1) rest
    | .returns ok =>
        if !ok && criticalAgents.contains a then [{ agent := a, success := ok }]
        else { agent := a, success := ok } :: coordLoop behave (i + 1) rest

/-- The response-level outcome of `_coordinate_agents`. -/
structure CoordResponse where
  success : Bool
  next_action : Option String
  coordination_results : List CoordEntry
deriving Repr, DecidableEq

/-- OrchestratorAgent._coordinate_agents (lines 268-332): with no required
agents an error response is returned; otherwise the ordered loop runs and
the overall success flag holds exactly when at least `n / 2` (integer
division) of the `n` required workers have a successful recorded result. -/
def coordinateAgents (behave : Nat → String → ExecOutcome)
    (required_agents : List String) : CoordResponse :=
  if required_agents.isEmpty then
    { success := false, next_action := some "error", coordination_results := [] }
  else
    let agent_order := executionOrder required_agents
    let results := coordLoop behave 0 agent_order
    let successful := (results.filter (·.success)).length
    { success := required_agents.length / 2 ≤ successful
    , next_action := some "coordination_complete"
    , coordination_results := results }

/-! ## Concierge agent (`src/agents/embassy_concierge_agent.py`)

The dispatcher and its handlers are modelled at the level the claims touch:
the success flag, the `next_action` label of each reply, and the effect on
storage.  User-facing prose messages and timestamps are not modelled.  Two
recognized action labels dispatch to methods that do not exist in the class
(`_handle_existing_project`, `_start_upload_intake`); reaching them raises
`AttributeError` in Python, modelled as `Except.error`. -/

/-- The request context read by the Concierge handlers, with the
`context.get` defaults already applied (`action` defaults to "greet",
`user_input` to "", `user_id` to "anonymous"). -/
structure ConciergeContext where
  action : String := "greet"
  user_input : String := ""
  user_id : String := "anonymous"
  user_name : String := "there"
  session_id : Option String := none
  use_case_id : Option String := none
deriving Repr, DecidableEq

/-- A stored chat session (claim-relevant fields). -/
structure ChatSession where
  session_id : String
  user_id : String
deriving Repr, DecidableEq

/-- A stored project (claim-relevant fields of TechHubProject). -/
structure StoredProject where
  project_id : String
  title : String
  created_by : String
  collaborators : List String
deriving Repr, DecidableEq

/-- The storage collections the Concierge touches, with an explicit counter
standing in for `uuid4` id generation. -/
structure ConciergeStorage where
  chat_sessions : List ChatSession := []
  use_cases : List UseCase := []
  projects : List StoredProject := []
  next_id : Nat := 0
deriving Repr, DecidableEq

/-- The fresh id the next `uuid4` default draws in the model. -/
def freshId (st : ConciergeStorage) : String := "id-" ++ toString st.next_id

/-- The Concierge reply, projected onto the fields the claims mention. -/
structure ConciergeResponse where
  agent_name : String := "ConciergeAgent"
  success : Bool
  next_action : Option String
deriving Repr, DecidableEq

/-- ConciergeAgent._handle_greeting (lines 61-99): creates a chat session
when the incoming session id is falsy, then asks for the project choice. -/
def handleGreeting (ctx : ConciergeContext) (st : ConciergeStorage) :
    ConciergeResponse × ConciergeStorage :=
  let st' :=
    if optTruthy ctx.session_id then st
    else
      { st with
        chat_sessions := st.chat_sessions
          ++ [{ session_id := freshId st, user_id := ctx.user_id }]
        next_id := st.next_id + 1 }
  ({ success := true, next_action := some "project_choice" }, st')

/-- StorageService.get_user_projects (`embassy_storage.py`, lines 188-193):
projects created by the user or listing the user as a collaborator. -/
def getUserProjects (st : ConciergeStorage) (user_id : String) : List StoredProject :=
  st.projects.filter fun p =>
    p.created_by == user_id || p.collaborators.contains user_id

/-- ConciergeAgent._handle_existing_project_selection (lines 408-461). -/
def handleExistingProjectSelection (ctx : ConciergeContext) (st : ConciergeStorage) :
    ConciergeResponse × ConciergeStorage :=
  if (getUserProjects st ctx.user_id).isEmpty then
    ({ success := true, next_action := some "handle_no_projects" }, st)
  else
    ({ success := true, next_action := some "select_existing_project" }, st)

/-- ConciergeAgent._present_intake_form (lines 117-162). -/
def presentIntakeForm (st : ConciergeStorage) :
    ConciergeResponse × ConciergeStorage :=
  ({ success := true, next_action := some "intake_form" }, st)

/-- ConciergeAgent._handle_project_choice (lines 101-115): branches on the
uppercased, stripped input; anything else re-prompts the same choice. -/
def handleProjectChoice (ctx : ConciergeContext) (st : ConciergeStorage) :
    ConciergeResponse × ConciergeStorage :=
  let choice := pyStrip (pyUpper ctx.user_input)
  if choice = "NEW" then presentIntakeForm st
  else if choice = "EXISTING" then handleExistingProjectSelection ctx st
  else ({ success := false, next_action := some "project_choice" }, st)

/-- The extraction result of `_extract_use_case_data` (lines 286-341). -/
structure ExtractedData where
  title : String
  description : String
  created_by : String
  industry_vertical : Option String
  cloud_preference : Option String
  resource_type_preference : List String
  timeline : Option String
deriving Repr, DecidableEq

/-- Model of `str.title()` as applied to the single lowercase industry words
of the fixed vocabulary: capitalize the first character. -/
def capFirst (s : String) : String :=
  match s.data with
  | [] => ""
  | c :: rest => ⟨asciiUpperChar c :: rest⟩

/-- ConciergeAgent._extract_use_case_data (lines 286-341): deterministic
keyword extraction of industry, cloud preference, resource types and a
timeline flag, plus a first-sentence title under 100 characters. -/
def extractUseCaseData (description : String) (user_id : String) : ExtractedData :=
  let dl := pyLower description
  let industry :=
    (["finance", "healthcare", "retail", "manufacturing", "education",
      "government"].find? fun i => pyIn i dl).map capFirst
  let cloud :=
    if pyIn "azure" dl then some "Azure"
    else if pyIn "aws" dl then some "AWS"
    else if pyIn "gcp" dl || pyIn "google cloud" dl then some "GCP"
    else none
  let rtypes :=
    (if pyIn "demo" dl then ["Demo"] else [])
    ++ (if pyIn "solution" dl then ["Solution"] else [])
    ++ (if pyIn "component" dl then ["Component"] else [])
  let timeline :=
    (["urgent", "asap", "month", "week", "quarter", "deadline"].find?
        fun k => pyIn k dl).map
      fun k => "Contains timeline reference: " ++ k
  let firstSentence := pyStrip ((pySplitChar '.' description).headD "")
  let title :=
    if firstSentence.length < 100 then firstSentence else "New Project"
  { title := title
  , description := description
  , created_by := user_id
  , industry_vertical := industry
  , cloud_preference := cloud
  , resource_type_preference := rtypes
  , timeline := timeline }

/-- The UseCase record built from an extraction, with the given fresh id. -/
def useCaseOfExtracted (e : ExtractedData) (id : String) : UseCase :=
  { use_case_id := id
  , title := e.title
  , description := e.description
  , industry_vertical := e.industry_vertical
  , cloud_preference := e.cloud_preference
  , project_constraints := { timeline := e.timeline }
  , resource_type_preference := e.resource_type_preference
  , created_by := e.created_by }

/-- ConciergeAgent._process_comprehensive_input (lines 228-284): input whose
stripped length is below 20 characters is rejected with a re-prompt and no
storage effect; otherwise the extracted use case is created and stored and
the reply awaits extraction confirmation.  (The `except` branch around the
record construction is unreachable: the extraction always populates the
fields the model requires.) -/
def processComprehensiveInput (ctx : ConciergeContext) (st : ConciergeStorage) :
    ConciergeResponse × ConciergeStorage :=
  let description := ctx.user_input
  if (pyStrip description).length < 20 then
    ({ success := false, next_action := some "process_comprehensive" }, st)
  else
    let extracted := extractUseCaseData description ctx.user_id
    let uc := useCaseOfExtracted extracted (freshId st)
    ({ success := true, next_action := some "confirm_extraction" },
     { st with use_cases := st.use_cases ++ [uc], next_id := st.next_id + 1 })

/-- ConciergeAgent._start_guided_intake (lines 178-203). -/
def startGuidedIntake (st : ConciergeStorage) :
    ConciergeResponse × ConciergeStorage :=
  ({ success := true, next_action := some "guided_intake_field" }, st)

/-- ConciergeAgent._start_comprehensive_intake (lines 205-226). -/
def startComprehensiveIntake (st : ConciergeStorage) :
    ConciergeResponse × ConciergeStorage :=
  ({ success := true, next_action := some "process_comprehensive" }, st)

/-- ConciergeAgent._handle_intake_form (lines 164-176): mode tokens route to
the guided, comprehensive or upload paths; the upload path calls the
undefined `_start_upload_intake` (an `AttributeError`); any other input is
fed to the comprehensive parser. -/
def handleIntakeForm (ctx : ConciergeContext) (st : ConciergeStorage) :
    Except String (ConciergeResponse × ConciergeStorage) :=
  let ui := pyLower (pyStrip ctx.user_input)
  if ["1", "guided", "guide", "one by one"].contains ui then
    .ok (startGuidedIntake st)
  else if ["2", "comprehensive", "description", "describe"].contains ui then
    .ok (startComprehensiveIntake st)
  else if ["3", "upload", "paste", "existing"].contains ui then
    .error "AttributeError: _start_upload_intake"
  else
    .ok (processComprehensiveInput ctx st)

/-- ConciergeAgent._handle_intake_submission (lines 367-406). -/
def handleIntakeSubmission (ctx : ConciergeContext) (st : ConciergeStorage) :
    ConciergeResponse × ConciergeStorage :=
  if !optTruthy ctx.use_case_id then
    ({ success := false, next_action := some "greet" }, st)
  else
    ({ success := true, next_action := some "orchestrate" }, st)

/-- The action labels the Concierge dispatcher recognizes (lines 44-53). -/
def conciergeKnownActions : List String :=
  ["greet", "project_choice", "intake_form", "submit_intake", "existing_project"]

/-- ConciergeAgent.process (lines 40-59): dispatch on the action label; the
`existing_project` branch calls the undefined `_handle_existing_project`
(an `AttributeError`); every other label falls through to a failed reply
whose `next_action` is "greet". -/
def conciergeProcess (ctx : ConciergeContext) (st : ConciergeStorage) :
    Except String (ConciergeResponse × ConciergeStorage) :=
  if ctx.action = "greet" then .ok (handleGreeting ctx st)
  else if ctx.action = "project_choice" then .ok (handleProjectChoice ctx st)
  else if ctx.action = "intake_form" then handleIntakeForm ctx st
  else if ctx.action = "submit_intake" then .ok (handleIntakeSubmission ctx st)
  else if ctx.action = "existing_project" then
    .error "AttributeError: _handle_existing_project"
  else .ok ({ success := false, next_action := some "greet" }, st)

/-! ## Concrete inputs used by witnesses and counterexamples -/

/-- A use case whose derived keywords are ["iot", "auth"]: the keyword
passes discover solution-002 before component-001 although the catalog
inserts component-001 first, and both end up with the same score. -/
def ucQ : UseCase :=
  { title := "q", description := "iot auth component", created_by := "user-1" }

/-- A use case whose timeline is the phrase the spec scenario uses. -/
def ucASAP : UseCase :=
  { title := "Chat assistant", description := "A simple chat assistant"
  , created_by := "user-1"
  , project_constraints := { timeline := some "need this ASAP" } }

/-- A use case triggering every standing BOM rule: a known cloud provider,
one matched compliance requirement, and an urgent timeline. -/
def ucFull : UseCase :=
  { title := "Payment platform", description := "A payment data platform"
  , created_by := "user-2"
  , cloud_preference := some "Azure"
  , project_constraints :=
      { timeline := some "urgent deadline"
      , compliance_requirements := ["GDPR"] } }

/-- A use case with exactly the compliance requirements of the C8 scenario. -/
def ucCompliance : UseCase :=
  { title := "Data platform", description := "A data platform"
  , created_by := "user-3"
  , project_constraints := { compliance_requirements := ["GDPR", "SOC2"] } }

/-- Worker behaviour where every worker returns success. -/
def behaveAllOk : Nat → String → ExecOutcome := fun _ _ => .returns true

/-- Worker behaviour where every worker returns an unsuccessful response. -/
def behaveAllFail : Nat → String → ExecOutcome := fun _ _ => .returns false

/-- Worker behaviour where the navigator raises and everyone else succeeds. -/
def behaveNavThrows : Nat → String → ExecOutcome := fun _ a =>
  if a = "NavigatorAgent" then .throws "storage offline" else .returns true

/-! ## Helper lemmas -/

theorem take_eq_take_min (l : List α) (n : Nat) :
    l.take n = l.take (min n l.length) := by
  rcases le_total n l.length with h | h
  · rw [min_eq_left h]
  · rw [min_eq_right h, List.take_of_length_le h, List.take_length]

/-! ## C1 -/

/-- C1: every score computed by `_score_resources` lies in the closed
interval [0,1] (here: [0,100] hundredths), for every candidate list and
every use case — the five signal contributions are clamped by the final
`min 1 (max 0 ·)`. -/
theorem c1_relevance_scores_clamped (resources : List Resource) (uc : UseCase)
    (s : ScoredResource) (hs : s ∈ scoreResources resources uc) :
    0 ≤ s.score ∧ s.score ≤ 100 := by
  rw [scoreResources, mem_sortBy] at hs
  obtain ⟨r, _, rfl⟩ := List.mem_map.mp hs
  exact ⟨le_min (by norm_num) (le_max_left _ _), min_le_left _ _⟩

/-- Witness for C1 at a concrete scored candidate. -/
theorem c1_relevance_scores_clamped_witness :
    ((⟨resDemo001, 0⟩ : ScoredResource) ∈ scoreResources [resDemo001] ucQ)
    ∧ (0 ≤ (⟨resDemo001, 0⟩ : ScoredResource).score
       ∧ (⟨resDemo001, 0⟩ : ScoredResource).score ≤ 100) :=
  ⟨by decide, c1_relevance_scores_clamped [resDemo001] ucQ _ (by decide)⟩

/-! ## C9 -/

/-- C9: the ResourceMatch built by `_search_resources` recommends at most 10
resources, and they are exactly the first `min 10 n` entries of the ranked
scored list (projected onto the persisted recommendation record). -/
theorem c9_top_ten_truncation (uc : UseCase) :
    (searchResourcesMatch uc).recommended_resources.length ≤ 10
    ∧ (searchResourcesMatch uc).recommended_resources
      = ((scoreResources (searchCatalog (extractSearchTerms uc)) uc).take
          (min 10 (scoreResources (searchCatalog (extractSearchTerms uc)) uc).length)).map
          toRecommended := by
  have h : (searchResourcesMatch uc).recommended_resources
      = ((scoreResources (searchCatalog (extractSearchTerms uc)) uc).take 10).map
          toRecommended := rfl
  constructor
  · rw [h, List.length_map, List.length_take]
    exact min_le_left _ _
  · rw [h, ← take_eq_take_min]

/-! ## C6 -/

/-- C6: the overall success flag of `_coordinate_agents` is true exactly
when the number of successfully recorded workers reaches the integer-floor
half of the number of required workers. -/
theorem c6_at_least_half_success (behave : Nat → String → ExecOutcome)
    (required_agents : List String) (h : required_agents ≠ []) :
    ((coordinateAgents behave required_agents).success = true
      ↔ required_agents.length / 2
        ≤ ((coordinateAgents behave required_agents).coordination_results.filter
            (·.success)).length) := by
  have hne : required_agents.isEmpty = false := by
    cases required_agents with
    | nil => exact absurd rfl h
    | cons a l => rfl
  simp [coordinateAgents, hne, decide_eq_true_iff]

/-- Witness for C6 on a one-worker coordination run. -/
theorem c6_at_least_half_success_witness :
    ((["NavigatorAgent"] : List String) ≠ [])
    ∧ ((coordinateAgents behaveAllOk ["NavigatorAgent"]).success = true
      ↔ (["NavigatorAgent"] : List String).length / 2
        ≤ ((coordinateAgents behaveAllOk ["NavigatorAgent"]).coordination_results.filter
            (·.success)).length) :=
  ⟨by decide, c6_at_least_half_success behaveAllOk ["NavigatorAgent"] (by decide)⟩

/-! ## C10 -/

/-- C10: a comprehensive-intake input whose stripped text is shorter than 20
characters yields an unsuccessful re-prompt with next action
"process_comprehensive", and the storage state (in particular the stored use
cases) is unchanged. -/
theorem c10_short_input_reprompt (ctx : ConciergeContext) (st : ConciergeStorage)
    (h : (pyStrip ctx.user_input).length < 20) :
    processComprehensiveInput ctx st
      = ({ success := false, next_action := some "process_comprehensive" }, st) := by
  rw [processComprehensiveInput]
  simp [h]

/-- Witness for C10 on a nine-character input. -/
theorem c10_short_input_reprompt_witness :
    ((pyStrip ("too short" : String)).length < 20)
    ∧ processComprehensiveInput { action := "intake_form", user_input := "too short" } {}
      = ({ success := false, next_action := some "process_comprehensive" }, {}) :=
  ⟨by decide, c10_short_input_reprompt _ _ (by decide)⟩

/-! ## C4 -/

/-- C4 counterexample: on the unrecognized action label
"confirm_extraction" (a label the agent itself emits but never dispatches),
`process` returns a failed reply whose next action is "greet" — not the
input's action label, as the claim states. -/
theorem c4_counterexample :
    conciergeProcess { action := "confirm_extraction" } {}
      = .ok ({ success := false, next_action := some "greet" }, {})
    ∧ some "greet" ≠ some "confirm_extraction" :=
  ⟨rfl, by decide⟩

/-- C4 (amended): on every unrecognized action label, `process` returns —
without raising — a failed re-prompt whose next action is reset to "greet"
(the initial state), leaving storage unchanged. -/
theorem c4_unknown_action_resets_to_greet (ctx : ConciergeContext) (st : ConciergeStorage)
    (h : ctx.action ∉ conciergeKnownActions) :
    conciergeProcess ctx st
      = .ok ({ success := false, next_action := some "greet" }, st) := by
  simp only [conciergeKnownActions, List.mem_cons, List.mem_singleton, not_or] at h
  obtain ⟨h1, h2, h3, h4, h5⟩ := h
  rw [conciergeProcess]
  simp [h1, h2, h3, h4, h5]

/-- Witness for the amended C4 at the concrete label "confirm_extraction". -/
theorem c4_unknown_action_resets_to_greet_witness :
    (("confirm_extraction" : String) ∉ conciergeKnownActions)
    ∧ conciergeProcess { action := "confirm_extraction" } {}
      = .ok ({ success := false, next_action := some "greet" }, {}) :=
  ⟨by decide, c4_unknown_action_resets_to_greet _ _ (by decide)⟩

/-! ## C5 -/

theorem filter_score_insertBy (x : ScoredResource) (l : List ScoredResource) (s : Int) :
    (insertBy scoreGE x l).filter (fun y => y.score == s)
      = if x.score == s then x :: l.filter (fun y => y.score == s)
        else l.filter (fun y => y.score == s) := by
  induction l with
  | nil =>
    by_cases hx : (x.score == s) = true <;> simp [insertBy, List.filter, hx]
  | cons y ys ih =>
    by_cases h : scoreGE x y = true
    · by_cases hx : (x.score == s) = true <;>
        simp [insertBy, h, List.filter_cons, hx]
    · have hxy : x.score < y.score := by
        have := (not_iff_not.mpr (decide_eq_true_iff (p := y.score ≤ x.score))).mp ?_
        · exact lt_of_not_le this
        · simpa [scoreGE] using h
      simp only [insertBy, h, Bool.false_eq_true, if_false]
      by_cases hx : (x.score == s) = true
      · have hxs : x.score = s := by simpa using hx
        have hys : (y.score == s) = false := by
          simp only [beq_eq_false_iff_ne, ne_eq]
          omega
        simp [List.filter_cons, hys, ih, hx]
      · simp [List.filter_cons, ih, hx]

theorem filter_score_sortBy (l : List ScoredResource) (s : Int) :
    (sortBy scoreGE l).filter (fun y => y.score == s)
      = l.filter (fun y => y.score == s) := by
  induction l with
  | nil => rfl
  | cons x xs ih =>
    rw [sortBy, filter_score_insertBy, ih, List.filter_cons]

/-- C5 counterexample: under `ucQ`, the keyword passes discover
solution-002 (via "iot") before component-001 (via "auth"); both score
0.07, and the ranked list keeps them in that discovery order even though
the catalog inserts component-001 (position 2) before solution-002
(position 4) — equal-score candidates do not appear in catalog insertion
order. -/
theorem c5_counterexample :
    (scoreResources (searchCatalog (extractSearchTerms ucQ)) ucQ).map
        (fun x => (x.resource.resource_id, x.score))
      = [("solution-002", 7), ("component-001", 7)]
    ∧ catalogResources.map (·.resource_id)
      = ["demo-001", "solution-001", "component-001", "demo-002", "solution-002"]
    ∧ (catalogResources.map (·.resource_id)).indexOf "component-001"
        < (catalogResources.map (·.resource_id)).indexOf "solution-002" := by
  refine ⟨by decide, by decide, by decide⟩

/-- C5 (amended): the sort in `_score_resources` is stable with respect to
its input, so equal-score candidates appear in the order `_search_catalog`
discovered them (keyword passes first, then type, then industry, first
discovery winning); this equals catalog insertion order only within a
single search pass.  Stability is stated as: for every score value, the
sublist of candidates carrying that score is exactly the corresponding
sublist of the unsorted scored list. -/
theorem c5_equal_scores_keep_discovery_order (resources : List Resource)
    (uc : UseCase) (s : Int) :
    (scoreResources resources uc).filter (fun y => y.score == s)
      = (resources.map (scoreOne uc)).filter (fun y => y.score == s) := by
  rw [scoreResources, filter_score_sortBy]

/-! ## C2 -/

theorem coordLoop_halt (behave : Nat → String → ExecOutcome) :
    ∀ (order : List String) (i k : Nat) (ok : Bool),
      k < (coordLoop behave i order).length →
      behave (i + k) (order.getD k "") = .returns ok →
      ok = false →
      criticalAgents.contains (order.getD k "") = true →
      (coordLoop behave i order).length = k + 1 := by
  intro order
  induction order with
  | nil =>
    intro i k ok hk hb hf hc
    simp [coordLoop] at hk
  | cons a rest ih =>
    intro i k ok hk hb hf hc
    cases k with
    | zero =>
      rw [List.getD_cons_zero] at hb hc
      rw [Nat.add_zero] at hb
      subst hf
      simp only [coordLoop, hb, hc, Bool.not_false, Bool.and_self, if_true]
      rfl
    | succ k' =>
      rw [List.getD_cons_succ] at hb hc
      have harith : i + (k' + 1) = (i + 1) + k' := by omega
      rw [harith] at hb
      rcases hba : behave i a with m | ok'
      · simp only [coordLoop, hba, List.length_cons] at hk ⊢
        have hk' : k' < (coordLoop behave (i + 1) rest).length := by omega
        rw [ih (i + 1) k' ok hk' hb hf hc]
      · by_cases hcond : (!ok' && criticalAgents.contains a) = true
        · simp only [coordLoop, hba, hcond, if_true, List.length_singleton] at hk
          omega
        · simp only [coordLoop, hba, hcond, Bool.false_eq_true, if_false,
            List.length_cons] at hk ⊢
          have hk' : k' < (coordLoop behave (i + 1) rest).length := by omega
          rw [ih (i + 1) k' ok hk' hb hf hc]

/-- C2 counterexample: the navigator (a critical worker) raises, the raise
is caught and recorded as a failed entry, and the loop continues — the
archivist, ordered after the failing critical worker, still appears in the
coordination results, so a critical worker that throws does not stop
coordination. -/
theorem c2_counterexample :
    (coordinateAgents behaveNavThrows
        ["NavigatorAgent", "ArchivistAgent"]).coordination_results
      = [{ agent := "NavigatorAgent", success := false },
         { agent := "ArchivistAgent", success := true }] := by
  decide

/-- C2 (amended): coordination stops immediately only when a critical
worker returns (without raising) an unsuccessful response: if the worker at
position k of the execution order does so and the loop reached it, its
entry is the last one — no worker ordered after it is recorded.  (A raise
is recorded as a failure but does not halt the loop, as the counterexample
shows.) -/
theorem c2_halt_only_on_returned_failure (behave : Nat → String → ExecOutcome)
    (required_agents : List String) (k : Nat) (ok : Bool)
    (hk : k < (coordinateAgents behave required_agents).coordination_results.length)
    (hb : behave k ((executionOrder required_agents).getD k "") = .returns ok)
    (hf : ok = false)
    (hc : criticalAgents.contains ((executionOrder required_agents).getD k "") = true) :
    (coordinateAgents behave required_agents).coordination_results.length = k + 1 := by
  by_cases hne : required_agents.isEmpty
  · simp [coordinateAgents, hne] at hk
  · have hres : (coordinateAgents behave required_agents).coordination_results
        = coordLoop behave 0 (executionOrder required_agents) := by
      simp [coordinateAgents, hne]
    rw [hres] at hk ⊢
    exact coordLoop_halt behave _ 0 k ok hk (by rw [Nat.zero_add]; exact hb) hf hc

/-- Witness for the amended C2: one critical worker returning failure halts
with exactly its own entry recorded. -/
theorem c2_halt_only_on_returned_failure_witness :
    (0 < (coordinateAgents behaveAllFail ["NavigatorAgent"]).coordination_results.length)
    ∧ behaveAllFail 0 ((executionOrder ["NavigatorAgent"]).getD 0 "") = .returns false
    ∧ criticalAgents.contains ((executionOrder ["NavigatorAgent"]).getD 0 "") = true
    ∧ (coordinateAgents behaveAllFail ["NavigatorAgent"]).coordination_results.length
        = 0 + 1 :=
  ⟨by decide, by decide, by decide,
   c2_halt_only_on_returned_failure behaveAllFail ["NavigatorAgent"] 0 false
     (by decide) (by decide) rfl (by decide)⟩

/-! ## BOM helper lemmas -/

theorem mem_getCloudRequirements_item (p : String) (b : BOMItem)
    (hb : b ∈ getCloudRequirements p) :
    b.item ∈ ["Azure Subscription", "Azure DevOps", "Azure Monitor",
      "AWS Account", "CodePipeline", "CloudWatch",
      "GCP Project", "Cloud Build", "Cloud Monitoring"] := by
  rw [getCloudRequirements] at hb
  split_ifs at hb with h1 h2 h3
  · fin_cases hb <;> decide
  · fin_cases hb <;> decide
  · fin_cases hb <;> decide
  · simp at hb

theorem mem_bomCloudBlock_item (uc : UseCase) (b : BOMItem)
    (hb : b ∈ bomCloudBlock uc) :
    b.item ∈ ["Azure Subscription", "Azure DevOps", "Azure Monitor",
      "AWS Account", "CodePipeline", "CloudWatch",
      "GCP Project", "Cloud Build", "Cloud Monitoring"] := by
  rcases huc : uc.cloud_preference with _ | p
  · simp [bomCloudBlock, huc] at hb
  · simp only [bomCloudBlock, huc] at hb
    split_ifs at hb with h1
    · simp at hb
    · exact mem_getCloudRequirements_item p b hb

theorem mem_complianceItemsFor_item (req : String) (b : BOMItem)
    (hb : b ∈ complianceItemsFor req) :
    b.item ∈ ["GDPR Compliance Framework", "HIPAA Compliance Tools",
      "SOC2 Audit Preparation", "PCI-DSS Compliance Suite"] := by
  simp only [complianceItemsFor] at hb
  split_ifs at hb <;> fin_cases hb <;> decide

theorem mem_foldl_append_compliance :
    ∀ (reqs : List String) (acc : List BOMItem) (b : BOMItem),
      b ∈ reqs.foldl (fun items req => items ++ complianceItemsFor req) acc →
      b ∈ acc ∨ ∃ r ∈ reqs, b ∈ complianceItemsFor r := by
  intro reqs
  induction reqs with
  | nil => intro acc b hb; exact Or.inl hb
  | cons r rs ih =>
    intro acc b hb
    rw [List.foldl_cons] at hb
    rcases ih _ b hb with h | ⟨r', hr', hbr⟩
    · rcases List.mem_append.mp h with h | h
      · exact Or.inl h
      · exact Or.inr ⟨r, List.mem_cons_self r rs, h⟩
    · exact Or.inr ⟨r', List.mem_cons_of_mem _ hr', hbr⟩

theorem mem_getComplianceRequirements_item (reqs : List String) (b : BOMItem)
    (hb : b ∈ getComplianceRequirements reqs) :
    b.item ∈ ["GDPR Compliance Framework", "HIPAA Compliance Tools",
      "SOC2 Audit Preparation", "PCI-DSS Compliance Suite"] := by
  rcases mem_foldl_append_compliance reqs [] b hb with h | ⟨r, _, hbr⟩
  · simp at h
  · exact mem_complianceItemsFor_item r b hbr

theorem mem_bomComplianceBlock (uc : UseCase) (b : BOMItem)
    (hb : b ∈ bomComplianceBlock uc) :
    b ∈ getComplianceRequirements uc.project_constraints.compliance_requirements := by
  rw [bomComplianceBlock] at hb
  split_ifs at hb with h
  · simp at hb
  · exact hb

theorem mem_bomTimelineBlock (uc : UseCase) (b : BOMItem)
    (hb : b ∈ bomTimelineBlock uc) : b = rapidBOMItem := by
  rcases huc : uc.project_constraints.timeline with _ | t
  · simp [bomTimelineBlock, huc] at hb
  · simp only [bomTimelineBlock, huc] at hb
    split_ifs at hb with h
    · simpa using hb
    · simp at hb

/-! ## C3 -/

/-- C3 counterexample: for the timeline "need this ASAP" the intent
analysis does classify priority as high, but `_generate_bom_items` tests
the timeline only for the substring "urgent", so the expedited "Rapid
Deployment Framework" item is not appended. -/
theorem c3_counterexample :
    (performIntentAnalysis ucASAP).priority = "high"
    ∧ ((generateBOMItems [] ucASAP).map (·.item)).contains
        "Rapid Deployment Framework" = false := by
  refine ⟨by decide, by decide⟩

/-- C3 (amended): for every use case whose timeline is "need this ASAP",
the intent analysis classifies priority as high, but the BOM deriver —
which appends the expedited item only when the timeline contains the
substring "urgent" — emits no "Rapid Deployment Framework" item. -/
theorem c3_asap_high_priority_without_expedited_item (uc : UseCase)
    (h : uc.project_constraints.timeline = some "need this ASAP") :
    (performIntentAnalysis uc).priority = "high"
    ∧ ∀ b ∈ generateBOMItems [] uc, b.item ≠ "Rapid Deployment Framework" := by
  constructor
  · have hp : (performIntentAnalysis uc).priority
        = priorityLevel uc.project_constraints.timeline := rfl
    rw [hp, h]
    decide
  · intro b hb
    have htlnil : bomTimelineBlock uc = [] := by
      rw [bomTimelineBlock, h]
      decide
    have hbom : generateBOMItems [] uc
        = ((bomCloudBlock uc ++ bomComplianceBlock uc) ++ [pmBOMItem, docBOMItem])
            ++ bomTimelineBlock uc := rfl
    rw [hbom, htlnil, List.append_nil] at hb
    rcases List.mem_append.mp hb with hb1 | hstd
    · rcases List.mem_append.mp hb1 with hcl | hco
      · have hmem := mem_bomCloudBlock_item uc b hcl
        intro heq
        rw [heq] at hmem
        exact absurd hmem (by decide)
      · have hmem := mem_getComplianceRequirements_item _ b (mem_bomComplianceBlock uc b hco)
        intro heq
        rw [heq] at hmem
        exact absurd hmem (by decide)
    · have hpd : b = pmBOMItem ∨ b = docBOMItem := by simpa using hstd
      rcases hpd with rfl | rfl <;> decide

/-- Witness for the amended C3 at the concrete use case `ucASAP`. -/
theorem c3_asap_high_priority_without_expedited_item_witness :
    ucASAP.project_constraints.timeline = some "need this ASAP"
    ∧ ((performIntentAnalysis ucASAP).priority = "high"
       ∧ ∀ b ∈ generateBOMItems [] ucASAP, b.item ≠ "Rapid Deployment Framework") :=
  ⟨rfl, c3_asap_high_priority_without_expedited_item ucASAP rfl⟩

/-! ## C7 -/

/-- C7: called with the empty candidate list (standalone BOM generation),
`_generate_bom_items` still emits rules 2-5 whenever their triggers hold:
every per-provider infrastructure item when a cloud preference is set,
every matched compliance item, the two standing process/documentation
items unconditionally, and the expedited item when the timeline contains
"urgent". -/
theorem c7_standalone_bom_rules (uc : UseCase) :
    (∀ p, uc.cloud_preference = some p → p ≠ "" →
      ∀ b ∈ getCloudRequirements p, b ∈ generateBOMItems [] uc)
    ∧ (∀ b ∈ getComplianceRequirements uc.project_constraints.compliance_requirements,
        b ∈ generateBOMItems [] uc)
    ∧ pmBOMItem ∈ generateBOMItems [] uc
    ∧ docBOMItem ∈ generateBOMItems [] uc
    ∧ (∀ t, uc.project_constraints.timeline = some t → t ≠ "" →
        pyIn "urgent" (pyLower t) = true → rapidBOMItem ∈ generateBOMItems [] uc) := by
  have hbom : generateBOMItems [] uc
      = ((bomCloudBlock uc ++ bomComplianceBlock uc) ++ [pmBOMItem, docBOMItem])
          ++ bomTimelineBlock uc := rfl
  refine ⟨?_, ?_, ?_, ?_, ?_⟩
  · intro p hp hne b hb
    have hcl : bomCloudBlock uc = getCloudRequirements p := by
      simp [bomCloudBlock, hp, hne]
    rw [← hcl] at hb
    rw [hbom]
    exact List.mem_append_left _ (List.mem_append_left _ (List.mem_append_left _ hb))
  · intro b hb
    have hco : b ∈ bomComplianceBlock uc := by
      rw [bomComplianceBlock]
      split_ifs with hemp
      · have hnil : uc.project_constraints.compliance_requirements = [] := by
          simpa using hemp
        rw [hnil] at hb
        exact absurd hb (List.not_mem_nil b)
      · exact hb
    rw [hbom]
    exact List.mem_append_left _ (List.mem_append_left _ (List.mem_append_right _ hco))
  · rw [hbom]
    exact List.mem_append_left _ (List.mem_append_right _ (by simp))
  · rw [hbom]
    exact List.mem_append_left _ (List.mem_append_right _ (by simp))
  · intro t ht htne hurg
    have htl : bomTimelineBlock uc = [rapidBOMItem] := by
      simp [bomTimelineBlock, ht, htne, hurg]
    rw [hbom, htl]
    exact List.mem_append_right _ (by simp)

/-- Witness for C7 at `ucFull`, where every trigger holds. -/
theorem c7_standalone_bom_rules_witness :
    ({ item := "Azure Subscription", category := "Infrastructure",
       source := "Azure", required := true } : BOMItem) ∈ generateBOMItems [] ucFull
    ∧ gdprBOMItem ∈ generateBOMItems [] ucFull
    ∧ pmBOMItem ∈ generateBOMItems [] ucFull
    ∧ docBOMItem ∈ generateBOMItems [] ucFull
    ∧ rapidBOMItem ∈ generateBOMItems [] ucFull :=
  ⟨(c7_standalone_bom_rules ucFull).1 "Azure" rfl (by decide) _ (by decide),
   (c7_standalone_bom_rules ucFull).2.1 _ (by decide),
   (c7_standalone_bom_rules ucFull).2.2.1,
   (c7_standalone_bom_rules ucFull).2.2.2.1,
   (c7_standalone_bom_rules ucFull).2.2.2.2 "urgent deadline" rfl (by decide) (by decide)⟩

/-! ## C8 -/

theorem bomTopBlock_filter_nil (scored : List ScoredResource) (name : String)
    (hcat : ∀ s ∈ scored, s.resource ∈ catalogResources)
    (hname : ∀ r ∈ catalogResources, r.title ≠ name) :
    (bomTopBlock scored).filter (fun b => b.item == name) = [] := by
  rw [List.filter_eq_nil_iff]
  intro b hb
  rw [bomTopBlock] at hb
  obtain ⟨s, hs, rfl⟩ := List.mem_map.mp hb
  have hr := hcat s (List.mem_of_mem_take hs)
  have ht := hname _ hr
  simpa using ht

theorem bomCloudBlock_filter_nil (uc : UseCase) (name : String)
    (hname : name ∉ ["Azure Subscription", "Azure DevOps", "Azure Monitor",
      "AWS Account", "CodePipeline", "CloudWatch",
      "GCP Project", "Cloud Build", "Cloud Monitoring"]) :
    (bomCloudBlock uc).filter (fun b => b.item == name) = [] := by
  rw [List.filter_eq_nil_iff]
  intro b hb
  have hmem := mem_bomCloudBlock_item uc b hb
  simp only [beq_iff_eq, decide_eq_true_iff]
  intro heq
  rw [heq] at hmem
  exact hname hmem

theorem bomTimelineBlock_filter_nil (uc : UseCase) (name : String)
    (hname : name ≠ "Rapid Deployment Framework") :
    (bomTimelineBlock uc).filter (fun b => b.item == name) = [] := by
  rw [List.filter_eq_nil_iff]
  intro b hb
  have hrb := mem_bomTimelineBlock uc b hb
  subst hrb
  simp only [rapidBOMItem, beq_iff_eq, decide_eq_true_iff]
  exact fun heq => hname heq.symm

/-- C8: for every candidate list drawn from the catalog and every use case
whose compliance requirements are exactly ["GDPR", "SOC2"], the derived BOM
contains exactly one GDPR item and exactly one SOC2 item, each required. -/
theorem c8_exactly_one_gdpr_and_soc2 (scored : List ScoredResource) (uc : UseCase)
    (hcat : ∀ s ∈ scored, s.resource ∈ catalogResources)
    (hreq : uc.project_constraints.compliance_requirements = ["GDPR", "SOC2"]) :
    ((generateBOMItems scored uc).filter
        (fun b => b.item == "GDPR Compliance Framework") = [gdprBOMItem]
      ∧ gdprBOMItem.required = true)
    ∧ ((generateBOMItems scored uc).filter
        (fun b => b.item == "SOC2 Audit Preparation") = [soc2BOMItem]
      ∧ soc2BOMItem.required = true) := by
  have hcomp : bomComplianceBlock uc = [gdprBOMItem, soc2BOMItem] := by
    rw [bomComplianceBlock, hreq]
    decide
  constructor <;> refine ⟨?_, rfl⟩
  · rw [generateBOMItems, List.filter_append, List.filter_append, List.filter_append,
      List.filter_append,
      bomTopBlock_filter_nil scored _ hcat (by decide),
      bomCloudBlock_filter_nil uc _ (by decide),
      hcomp,
      bomTimelineBlock_filter_nil uc _ (by decide)]
    decide
  · rw [generateBOMItems, List.filter_append, List.filter_append, List.filter_append,
      List.filter_append,
      bomTopBlock_filter_nil scored _ hcat (by decide),
      bomCloudBlock_filter_nil uc _ (by decide),
      hcomp,
      bomTimelineBlock_filter_nil uc _ (by decide)]
    decide

/-- Witness for C8 with one catalog-drawn candidate and the scenario's
requirement list. -/
theorem c8_exactly_one_gdpr_and_soc2_witness :
    (∀ s ∈ ([⟨resDemo001, 50⟩] : List ScoredResource), s.resource ∈ catalogResources)
    ∧ ucCompliance.project_constraints.compliance_requirements = ["GDPR", "SOC2"]
    ∧ ((((generateBOMItems [⟨resDemo001, 50⟩] ucCompliance).filter
          (fun b => b.item == "GDPR Compliance Framework") = [gdprBOMItem])
        ∧ gdprBOMItem.required = true)
      ∧ (((generateBOMItems [⟨resDemo001, 50⟩] ucCompliance).filter
          (fun b => b.item == "SOC2 Audit Preparation") = [soc2BOMItem])
        ∧ soc2BOMItem.required = true)) :=
  ⟨by decide, rfl, c8_exactly_one_gdpr_and_soc2 _ _ (by decide) rfl⟩
